import Mathlib

/-!
Verification development for the tweakcc instrumentation engine.

The TypeScript source is shallowly embedded: the generated runtime module's
pure logic (transform dispatcher, event filter, bounded regex compiler,
retry loops), the instrumentation code generators, the text splicer and the
pattern locators are translated into executable Lean definitions, and the
specification's testable properties are proved about them.

JavaScript primitives that cannot be reimplemented here (the host regex
engine, the clock, subprocess execution) are abstracted: regex matching is a
parameter, and a subprocess run is represented by its observable outcome.
-/

namespace Tweakcc

/-- JSON values, the data interchanged between the host and transform
programs.  Numbers are modelled as integers (the configuration and payload
values relevant to the spec are integral). -/
inductive Json where
  | null : Json
  | bool : Bool → Json
  | num : Int → Json
  | str : String → Json
  | arr : List Json → Json
  | obj : List (String × Json) → Json

/-- First binding of a key in a JS object field list. -/
def lookupField : List (String × Json) → String → Option Json
  | [], _ => none
  | (k, v) :: rest, key => if k = key then some v else lookupField rest key

/-- Property access `e[k]` on a JS value: `none` models `undefined`. -/
def jsField (e : Json) (k : String) : Option Json :=
  match e with
  | .obj fs => lookupField fs k
  | _ => none

/-- JavaScript truthiness of a JSON value. -/
def jsTruthy : Json → Bool
  | .null => false
  | .bool b => b
  | .num n => n != 0
  | .str s => s != ""
  | .arr _ => true
  | .obj _ => true

/-- Truthiness of `e[k]`; an absent field (`undefined`) is falsy. -/
def truthyField (e : Json) (k : String) : Bool :=
  match jsField e k with
  | some v => jsTruthy v
  | none => false

/-- `list.includes(v)` where the list holds strings and `v` is a JS value:
strict equality only matches a string member. -/
def strIncludes (l : List String) (v : Json) : Bool :=
  match v with
  | .str s => l.contains s
  | _ => false

/-- One character of `JSON.stringify` string escaping. -/
def escapeChar (c : Char) : List Char :=
  if c = '"' then ['\\', '"']
  else if c = '\\' then ['\\', '\\']
  else if c = '\n' then ['\\', 'n']
  else if c = '\t' then ['\\', 't']
  else if c = '\r' then ['\\', 'r']
  else [c]

/-- `JSON.stringify` escaping of a string body. -/
def escapeList : List Char → List Char
  | [] => []
  | c :: cs => escapeChar c ++ escapeList cs

def escapeJson (s : String) : String := ⟨escapeList s.data⟩

mutual

/-- `JSON.stringify` over the embedded JSON values. -/
def jsonStringify : Json → String
  | .null => "null"
  | .bool b => if b then "true" else "false"
  | .num n => toString n
  | .str s => "\"" ++ escapeJson s ++ "\""
  | .arr xs => "[" ++ jsonStringifyList xs ++ "]"
  | .obj fs => "\x7b" ++ jsonStringifyFields fs ++ "\x7d"

def jsonStringifyList : List Json → String
  | [] => ""
  | [x] => jsonStringify x
  | x :: xs => jsonStringify x ++ "," ++ jsonStringifyList xs

def jsonStringifyFields : List (String × Json) → String
  | [] => ""
  | [(k, v)] => "\"" ++ escapeJson k ++ "\":" ++ jsonStringify v
  | (k, v) :: fs => "\"" ++ escapeJson k ++ "\":" ++ jsonStringify v ++ "," ++ jsonStringifyFields fs

end

-- SECTION: Transform dispatcher (generated module in src/src/index.tsx, transform runner template): executeTransform / runTransforms

/-- What `JSON.parse` does to the bytes the transform program left in the
output file. -/
inductive ParseOutcome where
  | bad : ParseOutcome
  | good : Json → ParseOutcome

/-- Observable outcome of the `execSync` invocation of a transform program.
`procError wrote` is a throw from `execSync` (spawn failure or timeout; the
program may or may not have written the output file before dying);
`completed o` is a normal exit, with `o = none` when no output file exists. -/
inductive ExecOutcome where
  | procError : Bool → ExecOutcome
  | completed : Option ParseOutcome → ExecOutcome

/-- The failure cases enumerated by the spec: process error, timeout,
missing output file, unparsable output. -/
def failingOutcome : ExecOutcome → Bool
  | .procError _ => true
  | .completed none => true
  | .completed (some .bad) => true
  | .completed (some (.good _)) => false

/-- Result of one `executeTransform` call: the returned value and the
temporary files still existing when the call returns. -/
structure ETResult where
  result : Json
  tempFilesLeft : List String

/-- `executeTransform(transformConfig, inputData)` from the transform runner
template.  The input file is written, the program is run, the output file is
read back and parsed.  The `finally` block (`unlinkSync` of both temp files,
each wrapped in its own try/catch) runs on every path out of the inner try:
after a successful read, after the read/parse catch returned `inputData`,
and on the way out when `execSync` threw (the outer catch then returns
`inputData`). -/
def executeTransform (oc : ExecOutcome) (inFile outFile : String) (inputData : Json) : ETResult :=
  let filesAfterRun : List String :=
    match oc with
    | .procError wrote => if wrote then [inFile, outFile] else [inFile]
    | .completed none => [inFile]
    | .completed (some _) => [inFile, outFile]
  let filesAfterCleanup := filesAfterRun.filter (fun f => f != inFile && f != outFile)
  let result :=
    match oc with
    | .procError _ => inputData
    | .completed none => inputData
    | .completed (some .bad) => inputData
    | .completed (some (.good j)) => j
  ⟨result, filesAfterCleanup⟩

/-- Tool filter on a transform (`transform.filter?.tools`). -/
structure TransformFilter where
  tools : Option (List String)
deriving Repr, DecidableEq

/-- One entry of the embedded `transforms` array (TransformSpec). -/
structure Transform where
  id : String
  name : Option String
  transform : String
  script : String
  enabled : Bool
  priority : Option Int
  timeout : Option Nat
  filter : Option TransformFilter
deriving Repr, DecidableEq

/-- The `continue` guard in `runTransforms`:
`if (transform.filter?.tools && context.toolName)
   if (!transform.filter.tools.includes(context.toolName)) continue`. -/
def transformFilterSkips (tr : Transform) (ctx : Json) : Bool :=
  match tr.filter with
  | none => false
  | some f =>
    match f.tools with
    | none => false
    | some tools =>
      truthyField ctx "toolName" &&
        !(strIncludes tools ((jsField ctx "toolName").getD .null))

/-- The envelope `{ data, context, type }` handed to a transform program. -/
def mkEnvelope (data ctx : Json) (ty : String) : Json :=
  Json.obj [("data", data), ("context", ctx), ("type", Json.str ty)]

/-- `data && typeof data === 'object' && 'data' in data`. -/
def isObjWithData : Json → Bool
  | .obj fs => fs.any (fun kv => kv.1 == "data")
  | _ => false

/-- The post-step in `runTransforms`: if the returned value is an object
carrying a `data` property, that property is extracted; otherwise the
returned value itself stays. -/
def extractData (j : Json) : Json :=
  if jsTruthy j && isObjWithData j then (jsField j "data").getD Json.null else j

/-- One iteration of the `runTransforms` loop for a single transform, with
the outcome of its subprocess run made explicit. -/
def runTransformsStep (tr : Transform) (oc : ExecOutcome) (ctx : Json) (ty : String)
    (data : Json) : Json :=
  if transformFilterSkips tr ctx then data
  else extractData (executeTransform oc "in" "out" (mkEnvelope data ctx ty)).result

/-- `runTransforms(type, inputData, context)`: the transforms applicable to
the stage (the `transformsByType` group for `type`) are chained in order,
each paired with the outcome of its subprocess run. -/
def runTransforms (trs : List (Transform × ExecOutcome)) (ty : String)
    (inputData ctx : Json) : Json :=
  let applicable := trs.filter (fun p => p.1.transform == ty)
  applicable.foldl (fun data p => runTransformsStep p.1 p.2 ctx ty data) inputData


-- SECTION: Helper lemmas about the transform dispatcher

/-- A failing run returns its input unchanged. -/
lemma executeTransform_result_of_failing (oc : ExecOutcome) (inF outF : String) (d : Json)
    (h : failingOutcome oc = true) : (executeTransform oc inF outF d).result = d := by
  cases oc with
  | procError wrote => rfl
  | completed o =>
    cases o with
    | none => rfl
    | some p => cases p with
      | bad => rfl
      | good j => simp [failingOutcome] at h

/-- Extracting the `data` property back out of a freshly built envelope
yields the data it was built from. -/
lemma extractData_mkEnvelope (d ctx : Json) (ty : String) :
    extractData (mkEnvelope d ctx ty) = d := rfl

/-- One failing step of the stage loop keeps the data unchanged. -/
lemma runTransformsStep_of_failing (tr : Transform) (oc : ExecOutcome) (ctx : Json)
    (ty : String) (data : Json) (h : failingOutcome oc = true) :
    runTransformsStep tr oc ctx ty data = data := by
  unfold runTransformsStep
  by_cases hs : transformFilterSkips tr ctx
  · simp [hs]
  · simp [hs, executeTransform_result_of_failing _ _ _ _ h, extractData_mkEnvelope]

/-- Folding failing steps over any list of transforms keeps the data. -/
lemma foldl_runTransformsStep_of_failing (ty : String) (ctx : Json) :
    ∀ (l : List (Transform × ExecOutcome)) (input : Json),
      (∀ p ∈ l, failingOutcome p.2 = true) →
      l.foldl (fun data p => runTransformsStep p.1 p.2 ctx ty data) input = input := by
  intro l
  induction l with
  | nil => intro input _; rfl
  | cons p rest ih =>
    intro input h
    have hp : failingOutcome p.2 = true := h p (List.mem_cons_self p rest)
    simp only [List.foldl_cons, runTransformsStep_of_failing p.1 p.2 ctx ty input hp]
    exact ih input (fun q hq => h q (List.mem_cons_of_mem p hq))

-- SECTION: C1, C3, C6

/-- C1: whenever the external program run fails (process error, timeout,
missing output file, or output that does not parse as JSON),
`executeTransform` returns its input envelope unchanged; consequently one
stage step of `runTransforms` leaves the data it was given unchanged, and a
whole stage all of whose transform runs fail returns its input data. -/
theorem executeTransform_fail_open :
    (∀ (oc : ExecOutcome) (inF outF : String) (data ctx : Json) (ty : String),
       failingOutcome oc = true →
       (executeTransform oc inF outF (mkEnvelope data ctx ty)).result = mkEnvelope data ctx ty) ∧
    (∀ (tr : Transform) (oc : ExecOutcome) (ctx : Json) (ty : String) (data : Json),
       failingOutcome oc = true →
       runTransformsStep tr oc ctx ty data = data) ∧
    (∀ (trs : List (Transform × ExecOutcome)) (ty : String) (input ctx : Json),
       (∀ p ∈ trs, failingOutcome p.2 = true) →
       runTransforms trs ty input ctx = input) := by
  refine ⟨?_, ?_, ?_⟩
  · intro oc inF outF data ctx ty h
    exact executeTransform_result_of_failing oc inF outF _ h
  · intro tr oc ctx ty data h
    exact runTransformsStep_of_failing tr oc ctx ty data h
  · intro trs ty input ctx h
    unfold runTransforms
    refine foldl_runTransformsStep_of_failing ty ctx _ input ?_
    intro p hp
    exact h p (List.mem_of_mem_filter hp)

/-- A transform with no filter, used to instantiate the theorems. -/
def sampleTransform : Transform :=
  { id := "t1", name := none, transform := "prompt:before", script := "t1.js",
    enabled := true, priority := none, timeout := none, filter := none }

/-- Witness for C1 at a concrete failing run (missing output file). -/
theorem executeTransform_fail_open_witness :
    failingOutcome (.completed none) = true ∧
    runTransformsStep sampleTransform (.completed none) (Json.obj []) "prompt:before"
      (Json.str "hi") = Json.str "hi" :=
  ⟨rfl, executeTransform_fail_open.2.1 sampleTransform (.completed none) (Json.obj [])
    "prompt:before" (Json.str "hi") rfl⟩

/-- C3 counterexample: a transform program whose output file parses to the
JSON string `"oops"` — not a structurally compatible envelope — does change
the data passed on: the step result is the raw output `"oops"`, not the
original data `"hi"` the claim's fallback would require. -/
theorem runTransforms_nonEnvelope_counterexample :
    runTransformsStep sampleTransform (.completed (some (.good (Json.str "oops"))))
      (Json.obj []) "prompt:before" (Json.str "hi") = Json.str "oops" ∧
    Json.str "oops" ≠ Json.str "hi" := by
  refine ⟨rfl, ?_⟩
  intro h
  simp at h

/-- C3 (amended): for every transform output read back by the pipeline,
either it is an object carrying a `data` property and that property
replaces the current data, or the run failed (process error, timeout,
missing or unparsable output) and the pipeline falls back to the original
data, or the output is any other successfully parsed JSON value and that
value itself becomes the data passed to the next transform. -/
theorem runTransforms_output_shapes :
    (∀ (tr : Transform) (j : Json) (ctx : Json) (ty : String) (data : Json),
       transformFilterSkips tr ctx = false →
       (jsTruthy j && isObjWithData j) = true →
       runTransformsStep tr (.completed (some (.good j))) ctx ty data =
         (jsField j "data").getD Json.null) ∧
    (∀ (tr : Transform) (oc : ExecOutcome) (ctx : Json) (ty : String) (data : Json),
       failingOutcome oc = true →
       runTransformsStep tr oc ctx ty data = data) ∧
    (∀ (tr : Transform) (j : Json) (ctx : Json) (ty : String) (data : Json),
       transformFilterSkips tr ctx = false →
       (jsTruthy j && isObjWithData j) = false →
       runTransformsStep tr (.completed (some (.good j))) ctx ty data = j) := by
  refine ⟨?_, ?_, ?_⟩
  · intro tr j ctx ty data hs hj
    simp [runTransformsStep, hs, executeTransform, extractData, hj]
  · intro tr oc ctx ty data h
    exact runTransformsStep_of_failing tr oc ctx ty data h
  · intro tr j ctx ty data hs hj
    simp [runTransformsStep, hs, executeTransform, extractData, hj]

/-- Witness for the amended C3 at concrete inputs: an envelope output
replaces the data with its `data` field; a missing output file falls back;
a bare string output becomes the data. -/
theorem runTransforms_output_shapes_witness :
    (transformFilterSkips sampleTransform (Json.obj []) = false ∧
      runTransformsStep sampleTransform
        (.completed (some (.good (Json.obj [("data", Json.str "new")]))))
        (Json.obj []) "prompt:before" (Json.str "old") = Json.str "new") ∧
    runTransformsStep sampleTransform (.procError false) (Json.obj []) "prompt:before"
      (Json.str "old") = Json.str "old" ∧
    runTransformsStep sampleTransform (.completed (some (.good (Json.num 7))))
      (Json.obj []) "prompt:before" (Json.str "old") = Json.num 7 :=
  ⟨⟨rfl, runTransforms_output_shapes.1 sampleTransform (Json.obj [("data", Json.str "new")])
      (Json.obj []) "prompt:before" (Json.str "old") rfl rfl⟩,
   runTransforms_output_shapes.2.1 sampleTransform (.procError false) (Json.obj [])
      "prompt:before" (Json.str "old") rfl,
   runTransforms_output_shapes.2.2 sampleTransform (Json.num 7) (Json.obj [])
      "prompt:before" (Json.str "old") rfl rfl⟩

/-- C6: every call to `executeTransform` removes its temporary input and
output files on every exit path — success, process error (with or without a
partially written output file), timeout, missing output, unparsable
output. -/
theorem executeTransform_cleanup :
    ∀ (oc : ExecOutcome) (inF outF : String) (d : Json),
      (executeTransform oc inF outF d).tempFilesLeft = [] := by
  intro oc inF outF d
  cases oc with
  | procError wrote => cases wrote <;> simp [executeTransform]
  | completed o =>
    cases o with
    | none => simp [executeTransform]
    | some p => simp [executeTransform]


-- SECTION: Event dispatcher (generated module in src/src/utils/patches/events.ts): bounded regex compiler, filter evaluation, retry loops

/-- The host JavaScript regex engine, abstracted: whether `new RegExp`
accepts a pattern, whether a compiled pattern tests true against a string,
and whether one of the two fixed ReDoS-shape detector regexes of
`getCompiledRegex` matches the pattern. -/
structure JsRegexEngine where
  compileOk : String → Bool
  test : String → String → Bool
  redosRisk : String → Bool

/-- A compiled regex, identified by its source pattern. -/
structure CompiledRegex where
  pattern : String
deriving Repr, DecidableEq

/-- The `regexCache` map: pattern string ↦ compiled regex, or the cached
`null` recorded for a pattern `new RegExp` rejected. -/
abbrev RegexCache := List (String × Option CompiledRegex)

/-- `regexCache.has/get`, i.e. lookup by pattern string. -/
def cacheFind : RegexCache → String → Option (Option CompiledRegex)
  | [], _ => none
  | (k, v) :: rest, key => if k = key then some v else cacheFind rest key

abbrev MAX_REGEX_LENGTH : Nat := 500
abbrev MAX_TEST_STRING_LENGTH : Nat := 10000

/-- Result of `getCompiledRegex`: the returned value, the cache afterwards,
and the warnings logged. -/
structure GCRResult where
  regex : Option CompiledRegex
  cache : RegexCache
  logs : List String

/-- `getCompiledRegex(pattern)`: cache hit first; then the length ceiling,
the ReDoS shape detector, and finally `new RegExp` with the result (or its
failure, as `null`) stored in the cache. -/
def getCompiledRegex (E : JsRegexEngine) (pattern : String) (cache : RegexCache) : GCRResult :=
  match cacheFind cache pattern with
  | some v => ⟨v, cache, []⟩
  | none =>
    if MAX_REGEX_LENGTH < pattern.length then
      ⟨none, cache, ["Regex pattern too long, skipping"]⟩
    else if E.redosRisk pattern then
      ⟨none, cache, ["Potentially dangerous regex pattern detected (ReDoS risk), skipping"]⟩
    else if E.compileOk pattern then
      ⟨some ⟨pattern⟩, (pattern, some ⟨pattern⟩) :: cache, []⟩
    else
      ⟨none, (pattern, none) :: cache, ["Invalid regex pattern"]⟩

/-- A hook''s filter block. -/
structure HookFilter where
  tools : Option (List String)
  toolsExclude : Option (List String)
  messageTypes : Option (List String)
  regex : Option String
deriving Repr, DecidableEq

/-- One entry of the embedded `hooks` array (HookSpec). -/
structure Hook where
  id : String
  name : Option String
  events : List String
  type : String
  command : Option String
  webhook : Option String
  script : Option String
  enabled : Bool
  async : Option Bool
  onError : Option String
  retryCount : Option Nat
  retryDelay : Option Nat
  timeout : Option Nat
  filter : Option HookFilter
deriving Repr, DecidableEq

/-- The tool allow-list predicate failing:
`hook.filter.tools && eventData.toolName && !tools.includes(toolName)`. -/
def toolAllowFails (f : HookFilter) (eventData : Json) : Bool :=
  f.tools.isSome && truthyField eventData "toolName" &&
    !(strIncludes (f.tools.getD []) ((jsField eventData "toolName").getD .null))

/-- The tool deny-list predicate failing. -/
def toolExcludeFails (f : HookFilter) (eventData : Json) : Bool :=
  f.toolsExclude.isSome && truthyField eventData "toolName" &&
    strIncludes (f.toolsExclude.getD []) ((jsField eventData "toolName").getD .null)

/-- The message-type allow-list predicate failing. -/
def messageTypeFails (f : HookFilter) (eventData : Json) : Bool :=
  f.messageTypes.isSome && truthyField eventData "messageType" &&
    !(strIncludes (f.messageTypes.getD []) ((jsField eventData "messageType").getD .null))

/-- Result of `matchesFilter`: pass/fail, the regex cache afterwards, and
the warnings logged. -/
structure MFResult where
  pass : Bool
  cache : RegexCache
  logs : List String

/-- `matchesFilter(hook, eventData)`: tool allow-list, then tool deny-list,
then message-type list, then the bounded regex over the JSON-serialized
payload; each failing predicate returns false immediately.  A rejected
pattern (`getCompiledRegex` = null) leaves the regex branch as a pass, as
does a payload serialization above the size ceiling (with a warning). -/
def matchesFilter (E : JsRegexEngine) (hookFilter : Option HookFilter) (eventData : Json)
    (cache : RegexCache) : MFResult :=
  match hookFilter with
  | none => ⟨true, cache, []⟩
  | some f =>
    if toolAllowFails f eventData then ⟨false, cache, []⟩
    else if toolExcludeFails f eventData then ⟨false, cache, []⟩
    else if messageTypeFails f eventData then ⟨false, cache, []⟩
    else
      match f.regex with
      | none => ⟨true, cache, []⟩
      | some pat =>
        if pat = "" then ⟨true, cache, []⟩
        else
          let g := getCompiledRegex E pat cache
          match g.regex with
          | none => ⟨true, g.cache, g.logs⟩
          | some r =>
            let testString := jsonStringify eventData
            if MAX_TEST_STRING_LENGTH < testString.length then
              ⟨true, g.cache,
                g.logs ++ ["Event data too large for regex filter, skipping regex check"]⟩
            else ⟨E.test r.pattern testString, g.cache, g.logs⟩

/-- The `eventData` record `executeHook` builds:
`{event, timestamp, hookId, hookName, ...data}`; keys of the spread `data`
override the base fields. -/
def mkEventData (hook : Hook) (event ts : String) (data : List (String × Json)) : Json :=
  let base := [("event", Json.str event), ("timestamp", Json.str ts),
               ("hookId", Json.str hook.id), ("hookName", Json.str (hook.name.getD hook.id))]
  Json.obj (base.filter (fun kv => data.all (fun kv2 => kv2.1 != kv.1)) ++ data)

/-- Whether `executeHook` proceeds past its filter gate to dispatch the
hook''s sink (it returns early when `matchesFilter` is false). -/
def executeHookFires (E : JsRegexEngine) (hook : Hook) (event ts : String)
    (data : List (String × Json)) (cache : RegexCache) : Bool :=
  (matchesFilter E hook.filter (mkEventData hook event ts data) cache).pass


/-- Trace of retrying invocations: how many attempts ran, the waits (ms)
performed before each retry, and the final outcome (`none` = the last
attempt failed and the error escapes to the non-retry fallback). -/
structure RetryTrace (A : Type) where
  attempts : Nat
  waits : List Nat
  result : Option A
deriving Repr, DecidableEq

/-- `executeWithRetry(hook, fn, attempt)` from the event emitter template:
try `fn`; on rejection, if `onError === 'retry'` and `attempt < maxRetries`
(`retryCount ?? 3`), sleep `retryDelay · 2^attempt` and recurse with
`attempt + 1`; otherwise rethrow.  `fn i` is the outcome of the (i+1)-st
invocation. -/
def executeWithRetry {A : Type} (hook : Hook) (fn : Nat → Option A) (attempt : Nat) :
    RetryTrace A :=
  let maxRetries := hook.retryCount.getD 3
  let retryDelay := hook.retryDelay.getD 1000
  match fn attempt with
  | some a => ⟨1, [], some a⟩
  | none =>
    if h : hook.onError = some "retry" ∧ attempt < maxRetries then
      let t := executeWithRetry hook fn (attempt + 1)
      ⟨t.attempts + 1, retryDelay * 2 ^ attempt :: t.waits, t.result⟩
    else ⟨1, [], none⟩
termination_by hook.retryCount.getD 3 + 1 - attempt
decreasing_by simp_wf; have := h.2; omega

/-- The synchronous retry loop of `executeHook` for a blocking command hook
with `onError: 'retry'`: `while (attempt <= maxRetries)` run `execSync`,
break on success; on failure increment `attempt`, hand the error to
`handleError` and break once `attempt > maxRetries`, else `Atomics.wait`
for `retryDelay · 2^(attempt-1)` and loop.  `run i` is whether the
(i+1)-st invocation succeeds. -/
def syncRetryLoop (hook : Hook) (run : Nat → Bool) (attempt : Nat) : RetryTrace Unit :=
  let maxRetries := hook.retryCount.getD 3
  let retryDelay := hook.retryDelay.getD 1000
  if h : attempt ≤ maxRetries then
    if run attempt then ⟨1, [], some ()⟩
    else if h2 : maxRetries < attempt + 1 then ⟨1, [], none⟩
    else
      let t := syncRetryLoop hook run (attempt + 1)
      ⟨t.attempts + 1, retryDelay * 2 ^ (attempt + 1 - 1) :: t.waits, t.result⟩
  else ⟨0, [], some ()⟩
termination_by hook.retryCount.getD 3 + 1 - attempt
decreasing_by simp_wf; omega

/-- The exponential back-off schedule: `k` waits `d·2^a, d·2^(a+1), …`. -/
def waitList (d a k : Nat) : List Nat :=
  match k with
  | 0 => []
  | k + 1 => d * 2 ^ a :: waitList d (a + 1) k

lemma waitList_get (d : Nat) :
    ∀ k a i, i < k → (waitList d a k).get? i = some (d * 2 ^ (a + i)) := by
  intro k
  induction k with
  | zero => intro a i h; omega
  | succ k ih =>
    intro a i h
    cases i with
    | zero => simp [waitList]
    | succ i =>
      have := ih (a + 1) i (by omega)
      simp only [waitList, List.get?_cons_succ, this]
      ring_nf

/-- An always-failing async sink is retried down the whole schedule. -/
lemma executeWithRetry_fail {A : Type} (hook : Hook) (fn : Nat → Option A)
    (hfail : ∀ i, fn i = none) (hretry : hook.onError = some "retry") :
    ∀ k attempt, hook.retryCount.getD 3 = attempt + k →
      executeWithRetry hook fn attempt =
        ⟨k + 1, waitList (hook.retryDelay.getD 1000) attempt k, none⟩ := by
  intro k
  induction k with
  | zero =>
    intro attempt hN
    have hq : ¬ attempt < hook.retryCount.getD 3 := by omega
    unfold executeWithRetry
    simp [hfail, hq, waitList]
  | succ k ih =>
    intro attempt hN
    have hlt : attempt < hook.retryCount.getD 3 := by omega
    unfold executeWithRetry
    simp [hfail, hretry, hlt, waitList, ih (attempt + 1) (by omega)]

/-- An always-failing sync command is retried down the whole schedule. -/
lemma syncRetryLoop_fail (hook : Hook) (run : Nat → Bool)
    (hfail : ∀ i, run i = false) :
    ∀ k attempt, hook.retryCount.getD 3 = attempt + k →
      syncRetryLoop hook run attempt =
        ⟨k + 1, waitList (hook.retryDelay.getD 1000) attempt k, none⟩ := by
  intro k
  induction k with
  | zero =>
    intro attempt hN
    have hle : attempt ≤ hook.retryCount.getD 3 := by omega
    have hlt : hook.retryCount.getD 3 < attempt + 1 := by omega
    unfold syncRetryLoop
    simp [hfail, hle, hlt, waitList]
  | succ k ih =>
    intro attempt hN
    have hle : attempt ≤ hook.retryCount.getD 3 := by omega
    have hnlt : ¬ hook.retryCount.getD 3 < attempt + 1 := by omega
    unfold syncRetryLoop
    simp [hfail, hle, hnlt, waitList, ih (attempt + 1) (by omega)]

-- SECTION: C2

/-- C2: a hook with `onError: 'retry'` and `retryCount N` whose sink keeps
failing is attempted exactly N+1 times in total before the failure escapes
to the non-retry fallback, in both the asynchronous `executeWithRetry` path
and the synchronous command loop, and the wait before the k-th retry is
`retryDelay · 2^(k-1)`. -/
theorem retry_policy_attempts (hook : Hook) (N d : Nat)
    (hretry : hook.onError = some "retry")
    (hcount : hook.retryCount = some N) (hdelay : hook.retryDelay = some d) :
    (∀ {A : Type} (fn : Nat → Option A), (∀ i, fn i = none) →
       executeWithRetry hook fn 0 = ⟨N + 1, waitList d 0 N, none⟩) ∧
    (∀ run : Nat → Bool, (∀ i, run i = false) →
       syncRetryLoop hook run 0 = ⟨N + 1, waitList d 0 N, none⟩) ∧
    (∀ k, 1 ≤ k → k ≤ N → (waitList d 0 N).get? (k - 1) = some (d * 2 ^ (k - 1))) := by
  have hc : hook.retryCount.getD 3 = 0 + N := by simp [hcount]
  have hd : hook.retryDelay.getD 1000 = d := by simp [hdelay]
  refine ⟨?_, ?_, ?_⟩
  · intro A fn hfail
    have := executeWithRetry_fail hook fn hfail hretry N 0 hc
    rwa [hd] at this
  · intro run hfail
    have := syncRetryLoop_fail hook run hfail N 0 hc
    rwa [hd] at this
  · intro k h1 hk
    have := waitList_get d N 0 (k - 1) (by omega)
    simpa using this

/-- A hook with `onError: 'retry', retryCount: 2, retryDelay: 1000`. -/
def retryHook : Hook :=
  { id := "h-retry", name := none, events := ["tool:before"], type := "command",
    command := some "false", webhook := none, script := none, enabled := true,
    async := some false, onError := some "retry", retryCount := some 2,
    retryDelay := some 1000, timeout := none, filter := none }

/-- Witness for C2: `retryCount 2` gives exactly 3 attempts with waits
1000·2^0 and 1000·2^1 in both paths. -/
theorem retry_policy_attempts_witness :
    executeWithRetry retryHook (fun _ => (none : Option Unit)) 0 =
      ⟨3, waitList 1000 0 2, none⟩ ∧
    syncRetryLoop retryHook (fun _ => false) 0 = ⟨3, waitList 1000 0 2, none⟩ ∧
    waitList 1000 0 2 = [1000, 2000] :=
  ⟨(retry_policy_attempts retryHook 2 1000 rfl rfl rfl).1 (fun _ => none) (fun _ => rfl),
   (retry_policy_attempts retryHook 2 1000 rfl rfl rfl).2.1 (fun _ => false) (fun _ => rfl),
   by decide⟩


-- SECTION: C4: the bounded regex compiler

/-- C4: a pattern longer than MAX_REGEX_LENGTH, or matching one of the
known catastrophic-backtracking shapes, makes `getCompiledRegex` return
null (nothing cached), and the hook regex filter then behaves as
always-pass; a payload whose JSON serialization exceeds
MAX_TEST_STRING_LENGTH skips the regex test and passes with a logged
warning; an accepted pattern is compiled once and cached by its pattern
string, the second call being a pure cache hit. -/
theorem boundedRegexCompiler :
    (∀ (E : JsRegexEngine) (pat : String) (c : RegexCache),
       cacheFind c pat = none →
       (MAX_REGEX_LENGTH < pat.length ∨ E.redosRisk pat = true) →
       (getCompiledRegex E pat c).regex = none ∧ (getCompiledRegex E pat c).cache = c) ∧
    (∀ (E : JsRegexEngine) (f : HookFilter) (e : Json) (c : RegexCache) (pat : String),
       f.regex = some pat → pat ≠ "" →
       toolAllowFails f e = false → toolExcludeFails f e = false →
       messageTypeFails f e = false →
       (getCompiledRegex E pat c).regex = none →
       (matchesFilter E (some f) e c).pass = true) ∧
    (∀ (E : JsRegexEngine) (f : HookFilter) (e : Json) (c : RegexCache) (pat : String)
       (r : CompiledRegex),
       f.regex = some pat → pat ≠ "" →
       toolAllowFails f e = false → toolExcludeFails f e = false →
       messageTypeFails f e = false →
       (getCompiledRegex E pat c).regex = some r →
       MAX_TEST_STRING_LENGTH < (jsonStringify e).length →
       (matchesFilter E (some f) e c).pass = true ∧
       "Event data too large for regex filter, skipping regex check" ∈
         (matchesFilter E (some f) e c).logs) ∧
    (∀ (E : JsRegexEngine) (pat : String) (c : RegexCache),
       cacheFind c pat = none → pat.length ≤ MAX_REGEX_LENGTH →
       E.redosRisk pat = false → E.compileOk pat = true →
       getCompiledRegex E pat c = ⟨some ⟨pat⟩, (pat, some ⟨pat⟩) :: c, []⟩ ∧
       getCompiledRegex E pat ((pat, some ⟨pat⟩) :: c) =
         ⟨some ⟨pat⟩, (pat, some ⟨pat⟩) :: c, []⟩) := by
  refine ⟨?_, ?_, ?_, ?_⟩
  · intro E pat c hfresh hbad
    by_cases hlen : MAX_REGEX_LENGTH < pat.length
    · simp [getCompiledRegex, hfresh, hlen]
    · rcases hbad with h | h
      · exact absurd h hlen
      · simp [getCompiledRegex, hfresh, hlen, h]
  · intro E f e c pat hreg hne h1 h2 h3 hnone
    simp [matchesFilter, h1, h2, h3, hreg, hne, hnone]
  · intro E f e c pat r hreg hne h1 h2 h3 hsome hbig
    constructor
    · simp [matchesFilter, h1, h2, h3, hreg, hne, hsome, hbig]
    · simp [matchesFilter, h1, h2, h3, hreg, hne, hsome, hbig]
  · intro E pat c hfresh hlen hredos hok
    have hnlen : ¬ MAX_REGEX_LENGTH < pat.length := by omega
    constructor
    · simp [getCompiledRegex, hfresh, hnlen, hredos, hok]
    · simp [getCompiledRegex, cacheFind]

/-- A regex engine that accepts every pattern, matches everything and whose
ReDoS detector flags nothing. -/
def trivEngine : JsRegexEngine :=
  { compileOk := fun _ => true, test := fun _ _ => true, redosRisk := fun _ => false }

/-- A regex engine whose ReDoS detector flags exactly the nested-quantifier
pattern. -/
def redosEngine : JsRegexEngine :=
  { compileOk := fun _ => true, test := fun _ _ => true,
    redosRisk := fun p => p == "(a+)+" }

/-- Filter with only a ReDoS-shaped regex. -/
def reDoSFilter : HookFilter :=
  { tools := none, toolsExclude := none, messageTypes := none, regex := some "(a+)+" }

/-- Filter with only a harmless regex. -/
def xFilter : HookFilter :=
  { tools := none, toolsExclude := none, messageTypes := none, regex := some "x" }

/-- A 10001-character payload string. -/
def bigStr : String := ⟨List.replicate 10001 'a'⟩

lemma escapeChar_a : escapeChar 'a' = ['a'] := rfl

lemma escapeList_replicate_a (n : Nat) :
    escapeList (List.replicate n 'a') = List.replicate n 'a' := by
  induction n with
  | zero => rfl
  | succ n ih => simp [List.replicate_succ, escapeList, escapeChar_a, ih]

lemma jsonStringify_str (s : String) :
    jsonStringify (Json.str s) = "\"" ++ escapeJson s ++ "\"" := by
  simp [jsonStringify]

lemma bigStr_serialization_length :
    MAX_TEST_STRING_LENGTH < (jsonStringify (Json.str bigStr)).length := by
  have h1 : escapeJson bigStr = bigStr := congrArg String.mk (escapeList_replicate_a 10001)
  have h2 : bigStr.length = 10001 := by
    show (List.replicate 10001 'a').length = 10001
    exact List.length_replicate 10001 'a' 
  rw [jsonStringify_str, h1, String.length_append, String.length_append, h2]
  decide

/-- Witness for C4: the ReDoS-shaped pattern is rejected and its filter
passes; an accepted short pattern with an oversized payload passes with the
warning logged; a fresh short pattern is compiled and the second call is a
cache hit. -/
theorem boundedRegexCompiler_witness :
    ((getCompiledRegex redosEngine "(a+)+" []).regex = none ∧
      (getCompiledRegex redosEngine "(a+)+" []).cache = []) ∧
    (matchesFilter redosEngine (some reDoSFilter) (Json.obj []) []).pass = true ∧
    ((matchesFilter trivEngine (some xFilter) (Json.str bigStr) []).pass = true ∧
      "Event data too large for regex filter, skipping regex check" ∈
        (matchesFilter trivEngine (some xFilter) (Json.str bigStr) []).logs) ∧
    getCompiledRegex trivEngine "x" [] = ⟨some ⟨"x"⟩, [("x", some ⟨"x"⟩)], []⟩ ∧
    getCompiledRegex trivEngine "x" [("x", some ⟨"x"⟩)] =
      ⟨some ⟨"x"⟩, [("x", some ⟨"x"⟩)], []⟩ :=
  ⟨boundedRegexCompiler.1 redosEngine "(a+)+" [] rfl (Or.inr rfl),
   boundedRegexCompiler.2.1 redosEngine reDoSFilter (Json.obj []) [] "(a+)+" rfl
     (by decide) rfl rfl rfl rfl,
   boundedRegexCompiler.2.2.1 trivEngine xFilter (Json.str bigStr) [] "x" ⟨"x"⟩ rfl
     (by decide) rfl rfl rfl rfl bigStr_serialization_length,
   (boundedRegexCompiler.2.2.2 trivEngine "x" [] rfl (by decide) rfl rfl).1,
   (boundedRegexCompiler.2.2.2 trivEngine "x" [] rfl (by decide) rfl rfl).2⟩

-- SECTION: C5: filter evaluation order and concrete firing

/-- Filter allowing only the Bash tool. -/
def bashFilter : HookFilter :=
  { tools := some ["Bash"], toolsExclude := none, messageTypes := none, regex := none }

/-- A hook whose filter allows only the Bash tool. -/
def bashHook : Hook :=
  { id := "h-bash", name := none, events := ["tool:before"], type := "command",
    command := some "echo hi", webhook := none, script := none, enabled := true,
    async := some true, onError := none, retryCount := none, retryDelay := none,
    timeout := none, filter := some bashFilter }

/-- C5: `matchesFilter` evaluates tool allow-list, tool deny-list,
message-type list, then the bounded regex, short-circuiting to a failed
match at the first failing predicate (the regex cache is then untouched and
nothing is logged); concretely, a hook with `tools: ["Bash"]` does not fire
for an event carrying `toolName "Edit"` and does fire for
`toolName "Bash"`. -/
theorem matchesFilter_order :
    (∀ (E : JsRegexEngine) (f : HookFilter) (e : Json) (c : RegexCache),
       toolAllowFails f e = true → matchesFilter E (some f) e c = ⟨false, c, []⟩) ∧
    (∀ (E : JsRegexEngine) (f : HookFilter) (e : Json) (c : RegexCache),
       toolAllowFails f e = false → toolExcludeFails f e = true →
       matchesFilter E (some f) e c = ⟨false, c, []⟩) ∧
    (∀ (E : JsRegexEngine) (f : HookFilter) (e : Json) (c : RegexCache),
       toolAllowFails f e = false → toolExcludeFails f e = false →
       messageTypeFails f e = true → matchesFilter E (some f) e c = ⟨false, c, []⟩) ∧
    (∀ (E : JsRegexEngine) (ts : String) (c : RegexCache),
       executeHookFires E bashHook "tool:before" ts [("toolName", Json.str "Edit")] c
         = false) ∧
    (∀ (E : JsRegexEngine) (ts : String) (c : RegexCache),
       executeHookFires E bashHook "tool:before" ts [("toolName", Json.str "Bash")] c
         = true) := by
  refine ⟨?_, ?_, ?_, ?_, ?_⟩
  · intro E f e c h
    simp [matchesFilter, h]
  · intro E f e c h1 h2
    simp [matchesFilter, h1, h2]
  · intro E f e c h1 h2 h3
    simp [matchesFilter, h1, h2, h3]
  · intro E ts c
    rfl
  · intro E ts c
    rfl

/-- Witness for C5 at concrete inputs: a failing tool allow-list
short-circuits the whole filter, and the Bash hook fires exactly for
Bash. -/
theorem matchesFilter_order_witness :
    toolAllowFails bashFilter (Json.obj [("toolName", Json.str "Edit")]) = true ∧
    matchesFilter trivEngine (some bashFilter) (Json.obj [("toolName", Json.str "Edit")]) []
      = ⟨false, [], []⟩ ∧
    executeHookFires trivEngine bashHook "tool:before" "2026-01-01T00:00:00Z"
      [("toolName", Json.str "Edit")] [] = false ∧
    executeHookFires trivEngine bashHook "tool:before" "2026-01-01T00:00:00Z"
      [("toolName", Json.str "Bash")] [] = true :=
  ⟨rfl,
   matchesFilter_order.1 trivEngine bashFilter (Json.obj [("toolName", Json.str "Edit")])
     [] rfl,
   matchesFilter_order.2.2.2.1 trivEngine "2026-01-01T00:00:00Z" [],
   matchesFilter_order.2.2.2.2 trivEngine "2026-01-01T00:00:00Z" []⟩

-- SECTION: C10: payloads without a toolName skip the tool filters

/-- A transform guarded by a tool filter. -/
def toolTransform : Transform :=
  { id := "t-tool", name := none, transform := "tool:input", script := "t.js",
    enabled := true, priority := none, timeout := none,
    filter := some { tools := some ["Bash"] } }

/-- C10: when the event payload carries no `toolName`, both the tool
allow-list and the tool deny-list predicates are skipped — `matchesFilter`
behaves exactly as if the hook had neither list — so a hook with a tool
allow-list still fires for a payload without a `toolName`; likewise a
transform''s tool filter only applies when the context carries a truthy
`toolName`. -/
theorem missing_toolName_skips_tool_filters :
    (∀ (E : JsRegexEngine) (f : HookFilter) (e : Json) (c : RegexCache),
       jsField e "toolName" = none →
       matchesFilter E (some f) e c =
         matchesFilter E
           (some { tools := none, toolsExclude := none,
                   messageTypes := f.messageTypes, regex := f.regex }) e c) ∧
    (∀ (E : JsRegexEngine) (hook : Hook) (event ts : String) (c : RegexCache)
       (l : List String),
       hook.filter = some { tools := some l, toolsExclude := none,
                            messageTypes := none, regex := none } →
       executeHookFires E hook event ts [] c = true) ∧
    (∀ (tr : Transform) (ctx : Json), truthyField ctx "toolName" = false →
       transformFilterSkips tr ctx = false) := by
  refine ⟨?_, ?_, ?_⟩
  · intro E f e c h
    have ht : truthyField e "toolName" = false := by simp [truthyField, h]
    simp [matchesFilter, toolAllowFails, toolExcludeFails, messageTypeFails, ht]
  · intro E hook event ts c l hf
    simp only [executeHookFires, hf]
    rfl
  · intro tr ctx h
    cases htr : tr.filter with
    | none => simp [transformFilterSkips, htr]
    | some f =>
      cases hto : f.tools with
      | none => simp [transformFilterSkips, htr, hto]
      | some tools => simp [transformFilterSkips, htr, hto, h]

/-- Witness for C10 at concrete inputs: a payload without `toolName` leaves
the Bash-only filter passing, the Bash-only hook fires, and the
tool-filtered transform is not skipped. -/
theorem missing_toolName_skips_tool_filters_witness :
    matchesFilter trivEngine (some bashFilter) (Json.obj [("x", Json.num 1)]) [] =
      matchesFilter trivEngine
        (some { tools := none, toolsExclude := none, messageTypes := none,
                regex := none }) (Json.obj [("x", Json.num 1)]) [] ∧
    executeHookFires trivEngine bashHook "message:user" "2026-01-01T00:00:00Z" [] [] = true ∧
    transformFilterSkips toolTransform (Json.obj []) = false :=
  ⟨missing_toolName_skips_tool_filters.1 trivEngine bashFilter
     (Json.obj [("x", Json.num 1)]) [] rfl,
   missing_toolName_skips_tool_filters.2.1 trivEngine bashHook "message:user"
     "2026-01-01T00:00:00Z" [] ["Bash"] rfl,
   missing_toolName_skips_tool_filters.2.2 toolTransform (Json.obj []) rfl⟩


-- SECTION: Text splicer: the replacement loop of writePromptTransform

/-- One replacement: the offset of the match in the ORIGINAL text
(`match.index`), the matched text (`match[0]`) and its replacement
(`newText`). -/
structure Edit where
  index : Nat
  orig : List Char
  repl : List Char
deriving Repr, DecidableEq

/-- The replacement loop of `writePromptTransform`: each edit''s original
offset is adjusted by the running length delta `offset` accrued from the
earlier edits (`adjustedIndex = match.index + offset`), the adjusted span
is spliced out and the replacement spliced in, and
`offset += newText.length - originalText.length`. -/
def applyEditsAux : List Char → List Edit → Int → List Char
  | file, [], _ => file
  | file, e :: es, offset =>
    let adjusted := ((e.index : Int) + offset).toNat
    let file' := file.take adjusted ++ e.repl ++ file.drop (adjusted + e.orig.length)
    applyEditsAux file' es (offset + ((e.repl.length : Int) - (e.orig.length : Int)))

/-- The whole loop, starting from `offset = 0`. -/
def applyEdits (file : List Char) (es : List Edit) : List Char := applyEditsAux file es 0

/-- Rebuild a text from a decomposition into alternating unedited segments
and matched spans, ending in a trailing segment; with `useRepl = true` the
matched spans are replaced by their replacements. -/
def interleave (useRepl : Bool) : List (List Char × Edit) → List Char → List Char
  | [], tail => tail
  | (seg, e) :: rest, tail =>
    seg ++ (cond useRepl e.repl e.orig) ++ interleave useRepl rest tail

/-- The edits'' recorded indices agree with their positions in the
decomposition: matches are non-overlapping, in increasing offset order,
and each edit''s `orig` is exactly the text at its `index`. -/
def editsAligned : Nat → List (List Char × Edit) → Bool
  | _, [] => true
  | base, (seg, e) :: rest =>
    e.index == base + seg.length && editsAligned (base + seg.length + e.orig.length) rest

/-- Net length change of a list of edits. -/
def sumDelta : List Edit → Int
  | [] => 0
  | e :: es => ((e.repl.length : Int) - (e.orig.length : Int)) + sumDelta es

lemma applyEditsAux_interleave :
    ∀ (ps : List (List Char × Edit)) (tail done : List Char) (base : Nat),
      editsAligned base ps = true →
      applyEditsAux (done ++ interleave false ps tail) (ps.map (fun p => p.2))
          ((done.length : Int) - (base : Int)) =
        done ++ interleave true ps tail := by
  intro ps
  induction ps with
  | nil => intro tail done base _; rfl
  | cons p rest ih =>
    obtain ⟨seg, e⟩ := p
    intro tail done base halign
    simp only [editsAligned, Bool.and_eq_true, beq_iff_eq] at halign
    obtain ⟨hidx, hrest⟩ := halign
    simp only [interleave, List.map_cons, cond_false, cond_true]
    simp only [applyEditsAux]
    have hadj : ((e.index : Int) + ((done.length : Int) - (base : Int))).toNat
        = done.length + seg.length := by
      rw [hidx]; push_cast; omega
    rw [hadj]
    have htake : (done ++ (seg ++ e.orig ++ interleave false rest tail)).take
        (done.length + seg.length) = done ++ seg := by
      rw [show done ++ (seg ++ e.orig ++ interleave false rest tail)
            = (done ++ seg) ++ (e.orig ++ interleave false rest tail) by
          simp [List.append_assoc]]
      exact List.take_left' (by simp)
    have hdrop : (done ++ (seg ++ e.orig ++ interleave false rest tail)).drop
        (done.length + seg.length + e.orig.length) = interleave false rest tail := by
      rw [show done ++ (seg ++ e.orig ++ interleave false rest tail)
            = ((done ++ seg) ++ e.orig) ++ interleave false rest tail by
          simp [List.append_assoc]]
      exact List.drop_left' (by simp [Nat.add_assoc])
    rw [htake, hdrop]
    have hoff : ((done.length : Int) - (base : Int))
          + ((e.repl.length : Int) - (e.orig.length : Int))
        = (((done ++ seg ++ e.repl).length : Nat) : Int)
          - ((base + seg.length + e.orig.length : Nat) : Int) := by
      push_cast [List.length_append]
      omega
    rw [hoff]
    have hmain := ih tail (done ++ seg ++ e.repl) (base + seg.length + e.orig.length) hrest
    rw [hmain]
    simp [List.append_assoc]

lemma interleave_length (ps : List (List Char × Edit)) (tail : List Char) :
    ((interleave true ps tail).length : Int) =
      ((interleave false ps tail).length : Int) + sumDelta (ps.map (fun p => p.2)) := by
  induction ps with
  | nil => simp [interleave, sumDelta]
  | cons p rest ih =>
    obtain ⟨seg, e⟩ := p
    simp only [interleave, List.map_cons, sumDelta, cond_true, cond_false,
      List.length_append]
    push_cast
    push_cast at ih
    linarith [ih]

lemma interleave_extract :
    ∀ (ps : List (List Char × Edit)) (tail : List Char) (base : Nat) (i : Nat)
      (pe : List Char × Edit), editsAligned base ps = true → ps.get? i = some pe →
      ∃ pre post, interleave true ps tail = pre ++ pe.2.repl ++ post ∧
        (pre.length : Int) =
          (pe.2.index : Int) - (base : Int) + sumDelta ((ps.take i).map (fun p => p.2)) := by
  intro ps
  induction ps with
  | nil => intro tail base i pe _ hget; simp at hget
  | cons p rest ih =>
    obtain ⟨seg, e⟩ := p
    intro tail base i pe halign hget
    simp only [editsAligned, Bool.and_eq_true, beq_iff_eq] at halign
    obtain ⟨hidx, hrest⟩ := halign
    cases i with
    | zero =>
      simp only [List.get?_cons_zero, Option.some.injEq] at hget
      subst hget
      refine ⟨seg, interleave true rest tail, ?_, ?_⟩
      · simp [interleave, List.append_assoc]
      · simp only [List.take_zero, List.map_nil, sumDelta, hidx]
        push_cast
        omega
    | succ i =>
      simp only [List.get?_cons_succ] at hget
      obtain ⟨pre, post, heq, hlen⟩ :=
        ih tail (base + seg.length + e.orig.length) i pe hrest hget
      refine ⟨seg ++ e.repl ++ pre, post, ?_, ?_⟩
      · simp only [interleave, cond_true]
        rw [heq]
        simp [List.append_assoc]
      · simp only [List.take_succ_cons, List.map_cons, sumDelta, List.length_append]
        push_cast
        push_cast at hlen
        linarith [hlen]

-- SECTION: C8

/-- C8: for every set of non-overlapping matches (a decomposition of the
original text into unedited segments and matched spans, with each edit''s
`index` the original offset of its span), the running-delta replacement
loop of `writePromptTransform` produces exactly the decomposition with
every matched span replaced — so all unedited regions are unchanged — the
result''s length is the original length plus the sum of
`(inserted length − replaced length)`, and re-extracting each edited span
at its delta-shifted offset yields exactly the inserted replacement
text. -/
theorem splicer_correct (ps : List (List Char × Edit)) (tail : List Char)
    (h : editsAligned 0 ps = true) :
    applyEdits (interleave false ps tail) (ps.map (fun p => p.2)) =
      interleave true ps tail ∧
    ((applyEdits (interleave false ps tail) (ps.map (fun p => p.2))).length : Int) =
      ((interleave false ps tail).length : Int) + sumDelta (ps.map (fun p => p.2)) ∧
    (∀ (i : Nat) (pe : List Char × Edit), ps.get? i = some pe →
       ((applyEdits (interleave false ps tail) (ps.map (fun p => p.2))).drop
           ((pe.2.index : Int) + sumDelta ((ps.take i).map (fun p => p.2))).toNat).take
         pe.2.repl.length = pe.2.repl) := by
  have hmain : applyEdits (interleave false ps tail) (ps.map (fun p => p.2)) =
      interleave true ps tail := by
    have := applyEditsAux_interleave ps tail [] 0 h
    simpa [applyEdits] using this
  refine ⟨hmain, ?_, ?_⟩
  · rw [hmain]
    exact interleave_length ps tail
  · intro i pe hget
    obtain ⟨pre, post, heq, hlen⟩ := interleave_extract ps tail 0 i pe h hget
    have hpos : ((pe.2.index : Int) + sumDelta ((ps.take i).map (fun p => p.2))).toNat
        = pre.length := by
      omega
    rw [hmain, heq, hpos]
    rw [show pre ++ pe.2.repl ++ post = pre ++ (pe.2.repl ++ post) by
      simp [List.append_assoc]]
    rw [List.drop_left pre (pe.2.repl ++ post)]
    exact List.take_left pe.2.repl post

/-- Witness for C8: one concrete edit ("XY" → "uvw" at offset 1 of "AXYB")
spliced by the loop. -/
theorem splicer_correct_witness :
    editsAligned 0 [(['A'], ⟨1, ['X', 'Y'], ['u', 'v', 'w']⟩)] = true ∧
    applyEdits (interleave false [(['A'], ⟨1, ['X', 'Y'], ['u', 'v', 'w']⟩)] ['B'])
        ([(['A'], (⟨1, ['X', 'Y'], ['u', 'v', 'w']⟩ : Edit))].map (fun p => p.2)) =
      interleave true [(['A'], ⟨1, ['X', 'Y'], ['u', 'v', 'w']⟩)] ['B'] :=
  ⟨by decide,
   (splicer_correct [(['A'], ⟨1, ['X', 'Y'], ['u', 'v', 'w']⟩)] ['B'] (by decide)).1⟩

-- SECTION: Pattern locators (events.ts): C9

/-- A JavaScript `String.match` result: index of the first occurrence, the
matched text `match[0]`, and the first capture group `match[1]`. -/
structure RegexMatch where
  index : Nat
  matched : String
  cap1 : String
deriving Repr, DecidableEq

/-- Result shape of `findToolExecutionLocation`. -/
structure ToolExecLocation where
  startIndex : Nat
  endIndex : Nat
  funcName : String
  toolVarName : String
deriving Repr, DecidableEq

/-- `findToolExecutionLocation`: the primary tool-dispatch pattern
(`if(X.name==="…")`) is consulted first; only when it matches nowhere in
the text is the fallback (`async …toolName…`) consulted.  The host regex
engine is abstracted: `primary` and `alt` are the `match` results of the
two candidate patterns over the whole text. -/
def findToolExecutionLocation (primary alt : Option RegexMatch) : Option ToolExecLocation :=
  match primary with
  | some m => some ⟨m.index, m.index + m.matched.length, "", m.cap1⟩
  | none =>
    match alt with
    | some m => some ⟨m.index, m.index + m.matched.length, m.cap1, "toolName"⟩
    | none => none

/-- Result shape of `findThinkingLocation`. -/
structure ThinkingLocation where
  startIndex : Nat
  endIndex : Nat
  stateVar : String
deriving Repr, DecidableEq

/-- `findThinkingLocation`: the primary `X.thinking = true/false` pattern
first, then the `setState(…thinking: …)` fallback. -/
def findThinkingLocation (primary alt : Option RegexMatch) : Option ThinkingLocation :=
  match primary with
  | some m => some ⟨m.index, m.index + m.matched.length, m.cap1⟩
  | none =>
    match alt with
    | some m => some ⟨m.index, m.index + m.matched.length, m.cap1⟩
    | none => none

/-- C9: the locators try their candidate patterns strictly in order:
whenever the primary pattern matches, the result is derived from that
primary match and the fallback is never used — the result is the same
whatever the fallback would have matched, even at an earlier offset. -/
theorem locator_first_candidate_wins :
    (∀ (m : RegexMatch) (alt : Option RegexMatch),
       findToolExecutionLocation (some m) alt =
         some ⟨m.index, m.index + m.matched.length, "", m.cap1⟩) ∧
    (∀ (m : RegexMatch) (alt : Option RegexMatch),
       findThinkingLocation (some m) alt =
         some ⟨m.index, m.index + m.matched.length, m.cap1⟩) ∧
    (∀ (m a : RegexMatch), a.index < m.index →
       findToolExecutionLocation (some m) (some a) =
         findToolExecutionLocation (some m) none) :=
  ⟨fun _ _ => rfl, fun _ _ => rfl, fun _ _ _ => rfl⟩

/-- Witness for C9: a fallback match at an earlier offset than the primary
match leaves the locator result unchanged. -/
theorem locator_first_candidate_wins_witness :
    (0 : Nat) < 5 ∧
    findToolExecutionLocation (some ⟨5, "if(Z.name===\"Bash\")", "Z"⟩)
        (some ⟨0, "async run(toolName)", "run"⟩) =
      findToolExecutionLocation (some ⟨5, "if(Z.name===\"Bash\")", "Z"⟩) none :=
  ⟨by decide,
   locator_first_candidate_wins.2.2 ⟨5, "if(Z.name===\"Bash\")", "Z"⟩
     ⟨0, "async run(toolName)", "run"⟩ (by decide)⟩


-- SECTION: Instrumentation code generators: generateEventEmitterCode (events.ts) and generateTransformRunnerCode (transform runner module).  The fixed template text is reproduced verbatim below (split at its interpolation points).

def emitterT0 : String := "\n// \x3d\x3d\x3d\x3d\x3d\x3d\x3d\x3d\x3d\x3d\x3d\x3d\x3d\x3d\x3d\x3d\x3d\x3d\x3d\x3d\x3d\x3d\x3d\x3d\x3d\x3d\x3d\x3d\x3d\x3d\x3d\x3d\x3d\x3d\x3d\x3d\x3d\x3d\x3d\x3d\x3d\x3d\x3d\x3d\x3d\x3d\x3d\x3d\x3d\x3d\x3d\x3d\x3d\x3d\x3d\x3d\x3d\x3d\x3d\x3d\x3d\x3d\x3d\x3d\x3d\x3d\x3d\x3d\x3d\x3d\x3d\x3d\x3d\x3d\x3d\x3d\n// TWEAKCC EVENT EMITTER - Injected by tweakcc\n// \x3d\x3d\x3d\x3d\x3d\x3d\x3d\x3d\x3d\x3d\x3d\x3d\x3d\x3d\x3d\x3d\x3d\x3d\x3d\x3d\x3d\x3d\x3d\x3d\x3d\x3d\x3d\x3d\x3d\x3d\x3d\x3d\x3d\x3d\x3d\x3d\x3d\x3d\x3d\x3d\x3d\x3d\x3d\x3d\x3d\x3d\x3d\x3d\x3d\x3d\x3d\x3d\x3d\x3d\x3d\x3d\x3d\x3d\x3d\x3d\x3d\x3d\x3d\x3d\x3d\x3d\x3d\x3d\x3d\x3d\x3d\x3d\x3d\x3d\x3d\x3d\nconst TWEAKCC_EVENTS \x3d (function() \x7b\n  const \x7b spawn, execSync \x7d \x3d "

def emitterT1 : String := "(\x27child_process\x27);\n  const \x7b appendFileSync, mkdirSync \x7d \x3d "

def emitterT2 : String := "(\x27fs\x27);\n  const \x7b dirname, join \x7d \x3d "

def emitterT3 : String := "(\x27path\x27);\n  const \x7b homedir \x7d \x3d "

def emitterT4 : String := "(\x27os\x27);\n\n  const hooks \x3d "

def emitterT5 : String := ";\n  const loggingEnabled \x3d "

def emitterT6 : String := ";\n  const logFile \x3d "

def emitterT7 : String := " || join(homedir(), \x27.tweakcc\x27, \x27events.log\x27);\n  const logLevel \x3d "

def emitterT8 : String := ";\n\n  const LOG_LEVELS \x3d \x7b debug: 0, info: 1, warn: 2, error: 3 \x7d;\n\n  function log(level, message, data) \x7b\n    if (!loggingEnabled) return;\n    if (LOG_LEVELS[level] < LOG_LEVELS[logLevel]) return;\n\n    try \x7b\n      mkdirSync(dirname(logFile), \x7b recursive: true \x7d);\n      const entry \x3d JSON.stringify(\x7b\n        timestamp: new Date().toISOString(),\n        level,\n        message,\n        data\n      \x7d) + \x27\\n\x27;\n      appendFileSync(logFile, entry);\n    \x7d catch (e) \x7b\n      // Silently fail logging\n    \x7d\n  \x7d\n\n  // Cache compiled regex patterns to avoid recompilation overhead\n  const regexCache \x3d new Map();\n  const MAX_REGEX_LENGTH \x3d 500;\n  const MAX_TEST_STRING_LENGTH \x3d 10000;\n\n  function getCompiledRegex(pattern) \x7b\n    if (regexCache.has(pattern)) \x7b\n      return regexCache.get(pattern);\n    \x7d\n\n    // SECURITY: Reject overly complex regex patterns to prevent ReDoS\n    if (pattern.length > MAX_REGEX_LENGTH) \x7b\n      log(\x27warn\x27, \x27Regex pattern too long, skipping\x27, \x7b length: pattern.length, max: MAX_REGEX_LENGTH \x7d);\n      return null;\n    \x7d\n\n    // Basic ReDoS pattern detection (nested quantifiers)\n    const redosPatterns \x3d [\n      /(\\+|\\*|\\\x7b[^\x7d]+\\\x7d)\\s*\\??\\s*(\\+|\\*|\\\x7b[^\x7d]+\\\x7d)/,  // Nested quantifiers\n      /\\([^)]*(?:\\+|\\*)[^)]*\\)\\s*(?:\\+|\\*)/,               // Quantified groups with quantifiers\n    ];\n    for (const redosPattern of redosPatterns) \x7b\n      if (redosPattern.test(pattern)) \x7b\n        log(\x27warn\x27, \x27Potentially dangerous regex pattern detected (ReDoS risk), skipping\x27, \x7b pattern \x7d);\n        return null;\n      \x7d\n    \x7d\n\n    try \x7b\n      const regex \x3d new RegExp(pattern);\n      regexCache.set(pattern, regex);\n      return regex;\n    \x7d catch (e) \x7b\n      log(\x27warn\x27, \x27Invalid regex pattern\x27, \x7b pattern, error: e.message \x7d);\n      regexCache.set(pattern, null);\n      return null;\n    \x7d\n  \x7d\n\n  function matchesFilter(hook, eventData) \x7b\n    if (!hook.filter) return true;\n\n    // Tool include filter\n    if (hook.filter.tools && eventData.toolName) \x7b\n      if (!hook.filter.tools.includes(eventData.toolName)) return false;\n    \x7d\n\n    // Tool exclude filter\n    if (hook.filter.toolsExclude && eventData.toolName) \x7b\n      if (hook.filter.toolsExclude.includes(eventData.toolName)) return false;\n    \x7d\n\n    // Message type filter\n    if (hook.filter.messageTypes && eventData.messageType) \x7b\n      if (!hook.filter.messageTypes.includes(eventData.messageType)) return false;\n    \x7d\n\n    // Regex filter on stringified data (with safety checks)\n    if (hook.filter.regex) \x7b\n      const regex \x3d getCompiledRegex(hook.filter.regex);\n      if (regex) \x7b\n        const testString \x3d JSON.stringify(eventData);\n        // SECURITY: Limit test string length to prevent long-running matches\n        if (testString.length > MAX_TEST_STRING_LENGTH) \x7b\n          log(\x27warn\x27, \x27Event data too large for regex filter, skipping regex check\x27, \x7b hookId: hook.id \x7d);\n        \x7d else \x7b\n          if (!regex.test(testString)) return false;\n        \x7d\n      \x7d\n    \x7d\n\n    return true;\n  \x7d\n\n  function sleep(ms) \x7b\n    return new Promise(resolve \x3d> setTimeout(resolve, ms));\n  \x7d\n\n  async function executeWithRetry(hook, fn, attempt \x3d 0) \x7b\n    const maxRetries \x3d hook.retryCount ?? 3;\n    const retryDelay \x3d hook.retryDelay ?? 1000;\n\n    try \x7b\n      return await fn();\n    \x7d catch (e) \x7b\n      if (hook.onError \x3d\x3d\x3d \x27retry\x27 && attempt < maxRetries) \x7b\n        log(\x27warn\x27, \x27Hook failed, retrying...\x27, \x7b hookId: hook.id, attempt: attempt + 1, maxRetries \x7d);\n        await sleep(retryDelay * Math.pow(2, attempt)); // Exponential backoff\n        return executeWithRetry(hook, fn, attempt + 1);\n      \x7d\n      throw e;\n    \x7d\n  \x7d\n\n  function executeHook(hook, event, data) \x7b\n    const eventData \x3d \x7b\n      event,\n      timestamp: new Date().toISOString(),\n      hookId: hook.id,\n      hookName: hook.name || hook.id,\n      ...data\n    \x7d;\n\n    if (!matchesFilter(hook, eventData)) \x7b\n      log(\x27debug\x27, \x27Hook filtered out\x27, \x7b hookId: hook.id, event \x7d);\n      return;\n    \x7d\n\n    const startTime \x3d Date.now();\n    log(\x27debug\x27, \x27Executing hook\x27, \x7b hookId: hook.id, event, type: hook.type \x7d);\n\n    const handleError \x3d (e) \x3d> \x7b\n      const duration \x3d Date.now() - startTime;\n      log(\x27error\x27, \x27Hook execution error\x27, \x7b hookId: hook.id, event, error: e.message, duration \x7d);\n\n      if (hook.onError \x3d\x3d\x3d \x27abort\x27) \x7b\n        throw new Error(\x27Hook execution aborted: \x27 + e.message);\n      \x7d\n      // \x27continue\x27 is default - just log and continue\n    \x7d;\n\n    try \x7b\n      // Build environment variables\n      // SECURITY: Base64 encode JSON data to prevent shell injection\n      const jsonData \x3d JSON.stringify(eventData);\n      const base64Data \x3d Buffer.from(jsonData).toString(\x27base64\x27);\n\n      const baseEnv \x3d \x7b\n        ...process.env,\n        ...(hook.env || \x7b\x7d),\n        TWEAKCC_EVENT: event,\n        TWEAKCC_DATA: jsonData,\n        TWEAKCC_DATA_BASE64: base64Data,\n        TWEAKCC_HOOK_ID: hook.id,\n        TWEAKCC_HOOK_NAME: hook.name || hook.id\n      \x7d;\n\n      // Add tool-specific env vars (these are safe - controlled values)\n      if (eventData.toolName) baseEnv.TWEAKCC_TOOL_NAME \x3d String(eventData.toolName);\n      if (eventData.toolId) baseEnv.TWEAKCC_TOOL_ID \x3d String(eventData.toolId);\n\n      const execOptions \x3d \x7b\n        env: baseEnv,\n        cwd: hook.cwd || process.cwd(),\n        timeout: hook.timeout || 5000\n      \x7d;\n\n      if (hook.type \x3d\x3d\x3d \x27command\x27 && hook.command) \x7b\n        if (hook.async !\x3d\x3d false) \x7b\n          // Non-blocking execution\n          const child \x3d spawn(\x27sh\x27, [\x27-c\x27, hook.command], \x7b\n            ...execOptions,\n            detached: true,\n            stdio: \x27ignore\x27\n          \x7d);\n          child.unref();\n        \x7d else \x7b\n          // Blocking execution with retry support (synchronous)\n          const runCmdSync \x3d () \x3d> \x7b\n            execSync(hook.command, \x7b ...execOptions, stdio: \x27ignore\x27 \x7d);\n          \x7d;\n\n          if (hook.onError \x3d\x3d\x3d \x27retry\x27) \x7b\n            // Synchronous retry with exponential backoff\n            const maxRetries \x3d hook.retryCount ?? 3;\n            const retryDelay \x3d hook.retryDelay ?? 1000;\n            let attempt \x3d 0;\n            while (attempt <\x3d maxRetries) \x7b\n              try \x7b\n                runCmdSync();\n                break;\n              \x7d catch (e) \x7b\n                attempt++;\n                if (attempt > maxRetries) \x7b\n                  handleError(e);\n                  break;\n                \x7d\n                log(\x27warn\x27, \x27Hook failed, retrying...\x27, \x7b hookId: hook.id, attempt, maxRetries \x7d);\n                // Synchronous sleep using Atomics (blocks event loop intentionally for sync mode)\n                const waitMs \x3d retryDelay * Math.pow(2, attempt - 1);\n                Atomics.wait(new Int32Array(new SharedArrayBuffer(4)), 0, 0, waitMs);\n              \x7d\n            \x7d\n          \x7d else \x7b\n            try \x7b\n              runCmdSync();\n            \x7d catch (e) \x7b\n              handleError(e);\n            \x7d\n          \x7d\n        \x7d\n      \x7d else if (hook.type \x3d\x3d\x3d \x27webhook\x27 && hook.webhook) \x7b\n        // Fire-and-forget webhook with retry support\n        const https \x3d "

def emitterT9 : String := "(\x27https\x27);\n        const http \x3d "

def emitterT10 : String := "(\x27http\x27);\n\n        const sendWebhook \x3d () \x3d> \x7b\n          return new Promise((resolve, reject) \x3d> \x7b\n            const url \x3d new URL(hook.webhook);\n            const client \x3d url.protocol \x3d\x3d\x3d \x27https:\x27 ? https : http;\n\n            const postData \x3d JSON.stringify(eventData);\n            const req \x3d client.request(url, \x7b\n              method: \x27POST\x27,\n              headers: \x7b\n                \x27Content-Type\x27: \x27application/json\x27,\n                \x27Content-Length\x27: Buffer.byteLength(postData),\n                \x27X-Tweakcc-Event\x27: event,\n                \x27X-Tweakcc-Hook-Id\x27: hook.id\n              \x7d,\n              timeout: hook.timeout || 5000\n            \x7d);\n\n            req.on(\x27response\x27, (res) \x3d> \x7b\n              if (res.statusCode >\x3d 200 && res.statusCode < 300) \x7b\n                resolve();\n              \x7d else \x7b\n                reject(new Error(\x27HTTP \x27 + res.statusCode));\n              \x7d\n            \x7d);\n\n            req.on(\x27error\x27, reject);\n            req.on(\x27timeout\x27, () \x3d> reject(new Error(\x27Timeout\x27)));\n\n            req.write(postData);\n            req.end();\n          \x7d);\n        \x7d;\n\n        if (hook.onError \x3d\x3d\x3d \x27retry\x27) \x7b\n          executeWithRetry(hook, sendWebhook).catch(handleError);\n        \x7d else \x7b\n          sendWebhook().catch(handleError);\n        \x7d\n      \x7d else if (hook.type \x3d\x3d\x3d \x27script\x27 && hook.script) \x7b\n        // Dynamic script execution\n        try \x7b\n          const scriptPath \x3d hook.script.startsWith(\x27~\x27)\n            ? hook.script.replace(\x27~\x27, homedir())\n            : hook.script;\n\n          // Use child process to run the script\n          const child \x3d spawn(\x27node\x27, [scriptPath], \x7b\n            env: baseEnv,\n            cwd: hook.cwd || dirname(scriptPath),\n            detached: hook.async !\x3d\x3d false,\n            stdio: \x27ignore\x27\n          \x7d);\n\n          if (hook.async !\x3d\x3d false) \x7b\n            child.unref();\n          \x7d\n        \x7d catch (e) \x7b\n          handleError(e);\n        \x7d\n      \x7d\n\n      const duration \x3d Date.now() - startTime;\n      log(\x27info\x27, \x27Hook executed\x27, \x7b hookId: hook.id, event, duration \x7d);\n    \x7d catch (e) \x7b\n      handleError(e);\n    \x7d\n  \x7d\n\n  function emit(event, data \x3d \x7b\x7d) \x7b\n    log(\x27debug\x27, \x27Event emitted\x27, \x7b event, data \x7d);\n\n    for (const hook of hooks) \x7b\n      if (!hook.enabled) continue;\n\n      const events \x3d Array.isArray(hook.events) ? hook.events : [hook.events];\n\n      if (events.includes(event) || events.some(e \x3d> e.startsWith(\x27custom:\x27) && event.startsWith(\x27custom:\x27))) \x7b\n        executeHook(hook, event, data);\n      \x7d\n    \x7d\n  \x7d\n\n  // Public API\n  return \x7b\n    emit,\n    log,\n    hooks\n  \x7d;\n\x7d)();\n// \x3d\x3d\x3d\x3d\x3d\x3d\x3d\x3d\x3d\x3d\x3d\x3d\x3d\x3d\x3d\x3d\x3d\x3d\x3d\x3d\x3d\x3d\x3d\x3d\x3d\x3d\x3d\x3d\x3d\x3d\x3d\x3d\x3d\x3d\x3d\x3d\x3d\x3d\x3d\x3d\x3d\x3d\x3d\x3d\x3d\x3d\x3d\x3d\x3d\x3d\x3d\x3d\x3d\x3d\x3d\x3d\x3d\x3d\x3d\x3d\x3d\x3d\x3d\x3d\x3d\x3d\x3d\x3d\x3d\x3d\x3d\x3d\x3d\x3d\x3d\x3d\n// END TWEAKCC EVENT EMITTER\n// \x3d\x3d\x3d\x3d\x3d\x3d\x3d\x3d\x3d\x3d\x3d\x3d\x3d\x3d\x3d\x3d\x3d\x3d\x3d\x3d\x3d\x3d\x3d\x3d\x3d\x3d\x3d\x3d\x3d\x3d\x3d\x3d\x3d\x3d\x3d\x3d\x3d\x3d\x3d\x3d\x3d\x3d\x3d\x3d\x3d\x3d\x3d\x3d\x3d\x3d\x3d\x3d\x3d\x3d\x3d\x3d\x3d\x3d\x3d\x3d\x3d\x3d\x3d\x3d\x3d\x3d\x3d\x3d\x3d\x3d\x3d\x3d\x3d\x3d\x3d\x3d\n\n"

def runnerT0 : String := "\n// \x3d\x3d\x3d\x3d\x3d\x3d\x3d\x3d\x3d\x3d\x3d\x3d\x3d\x3d\x3d\x3d\x3d\x3d\x3d\x3d\x3d\x3d\x3d\x3d\x3d\x3d\x3d\x3d\x3d\x3d\x3d\x3d\x3d\x3d\x3d\x3d\x3d\x3d\x3d\x3d\x3d\x3d\x3d\x3d\x3d\x3d\x3d\x3d\x3d\x3d\x3d\x3d\x3d\x3d\x3d\x3d\x3d\x3d\x3d\x3d\x3d\x3d\x3d\x3d\x3d\x3d\x3d\x3d\x3d\x3d\x3d\x3d\x3d\x3d\x3d\x3d\n// TWEAKCC TRANSFORM RUNNER - Injected by tweakcc\n// \x3d\x3d\x3d\x3d\x3d\x3d\x3d\x3d\x3d\x3d\x3d\x3d\x3d\x3d\x3d\x3d\x3d\x3d\x3d\x3d\x3d\x3d\x3d\x3d\x3d\x3d\x3d\x3d\x3d\x3d\x3d\x3d\x3d\x3d\x3d\x3d\x3d\x3d\x3d\x3d\x3d\x3d\x3d\x3d\x3d\x3d\x3d\x3d\x3d\x3d\x3d\x3d\x3d\x3d\x3d\x3d\x3d\x3d\x3d\x3d\x3d\x3d\x3d\x3d\x3d\x3d\x3d\x3d\x3d\x3d\x3d\x3d\x3d\x3d\x3d\x3d\nconst TWEAKCC_TRANSFORMS \x3d (function() \x7b\n  const \x7b execSync, spawnSync \x7d \x3d "

def runnerT1 : String := "(\x27child_process\x27);\n  const \x7b readFileSync, writeFileSync, mkdirSync, unlinkSync \x7d \x3d "

def runnerT2 : String := "(\x27fs\x27);\n  const \x7b join, dirname \x7d \x3d "

def runnerT3 : String := "(\x27path\x27);\n  const \x7b homedir, tmpdir \x7d \x3d "

def runnerT4 : String := "(\x27os\x27);\n  const \x7b randomUUID \x7d \x3d "

def runnerT5 : String := "(\x27crypto\x27);\n\n  const transforms \x3d "

def runnerT6 : String := ";\n\n  // Group transforms by type for faster lookup\n  const transformsByType \x3d \x7b\x7d;\n  for (const t of transforms) \x7b\n    if (!transformsByType[t.transform]) \x7b\n      transformsByType[t.transform] \x3d [];\n    \x7d\n    transformsByType[t.transform].push(t);\n  \x7d\n\n  function log(level, message, data) \x7b\n    if (process.env.TWEAKCC_DEBUG) \x7b\n      console.error(\x27[tweakcc:transform:\x27 + level + \x27]\x27, message, data || \x27\x27);\n    \x7d\n  \x7d\n\n  function resolvePath(scriptPath) \x7b\n    if (scriptPath.startsWith(\x27~\x27)) \x7b\n      return scriptPath.replace(\x27~\x27, homedir());\n    \x7d\n    return scriptPath;\n  \x7d\n\n  /**\n   * Execute a transform script and return the modified data\n   * Scripts receive input via stdin (JSON) and return output via stdout (JSON)\n   */\n  function executeTransform(transformConfig, inputData) \x7b\n    const scriptPath \x3d resolvePath(transformConfig.script);\n    const timeout \x3d transformConfig.timeout || 5000;\n\n    try \x7b\n      // Write input to a temp file (more reliable than stdin for sync execution)\n      const tempDir \x3d join(tmpdir(), \x27tweakcc-transforms\x27);\n      mkdirSync(tempDir, \x7b recursive: true \x7d);\n      const inputFile \x3d join(tempDir, randomUUID() + \x27.json\x27);\n      const outputFile \x3d join(tempDir, randomUUID() + \x27.json\x27);\n\n      writeFileSync(inputFile, JSON.stringify(inputData));\n\n      // Execute the script\n      // The script should read from INPUT_FILE, write to OUTPUT_FILE\n      const env \x3d \x7b\n        ...process.env,\n        TWEAKCC_INPUT_FILE: inputFile,\n        TWEAKCC_OUTPUT_FILE: outputFile,\n        TWEAKCC_TRANSFORM_TYPE: transformConfig.transform,\n        TWEAKCC_TRANSFORM_ID: transformConfig.id,\n      \x7d;\n\n      try \x7b\n        execSync(\x27node \x27 + JSON.stringify(scriptPath), \x7b\n          env,\n          timeout,\n          stdio: [\x27pipe\x27, \x27pipe\x27, \x27pipe\x27],\n          encoding: \x27utf8\x27,\n        \x7d);\n\n        // Read output\n        try \x7b\n          const output \x3d readFileSync(outputFile, \x27utf8\x27);\n          const result \x3d JSON.parse(output);\n          log(\x27debug\x27, \x27Transform succeeded\x27, \x7b id: transformConfig.id, hasResult: !!result \x7d);\n          return result;\n        \x7d catch (readErr) \x7b\n          // Output file not written or invalid - return original\n          log(\x27warn\x27, \x27Transform did not write output\x27, \x7b id: transformConfig.id \x7d);\n          return inputData;\n        \x7d\n      \x7d finally \x7b\n        // Cleanup temp files\n        try \x7b unlinkSync(inputFile); \x7d catch \x7b\x7d\n        try \x7b unlinkSync(outputFile); \x7d catch \x7b\x7d\n      \x7d\n    \x7d catch (err) \x7b\n      log(\x27error\x27, \x27Transform execution failed\x27, \x7b id: transformConfig.id, error: err.message \x7d);\n      return inputData; // Return original on error\n    \x7d\n  \x7d\n\n  /**\n   * Run all transforms of a given type on the input data\n   * Returns the final transformed data\n   */\n  function runTransforms(type, inputData, context \x3d \x7b\x7d) \x7b\n    const applicableTransforms \x3d transformsByType[type] || [];\n    if (applicableTransforms.length \x3d\x3d\x3d 0) \x7b\n      return inputData;\n    \x7d\n\n    let data \x3d inputData;\n    for (const transform of applicableTransforms) \x7b\n      // Check filter\n      if (transform.filter?.tools && context.toolName) \x7b\n        if (!transform.filter.tools.includes(context.toolName)) \x7b\n          continue;\n        \x7d\n      \x7d\n\n      log(\x27debug\x27, \x27Running transform\x27, \x7b id: transform.id, type \x7d);\n      data \x3d executeTransform(transform, \x7b data, context, type \x7d);\n\n      // If transform returns an object with \x27data\x27 property, extract it\n      if (data && typeof data \x3d\x3d\x3d \x27object\x27 && \x27data\x27 in data) \x7b\n        data \x3d data.data;\n      \x7d\n    \x7d\n\n    return data;\n  \x7d\n\n  // Public API\n  return \x7b\n    run: runTransforms,\n    hasTransforms: (type) \x3d> (transformsByType[type] || []).length > 0,\n  \x7d;\n\x7d)();\n// \x3d\x3d\x3d\x3d\x3d\x3d\x3d\x3d\x3d\x3d\x3d\x3d\x3d\x3d\x3d\x3d\x3d\x3d\x3d\x3d\x3d\x3d\x3d\x3d\x3d\x3d\x3d\x3d\x3d\x3d\x3d\x3d\x3d\x3d\x3d\x3d\x3d\x3d\x3d\x3d\x3d\x3d\x3d\x3d\x3d\x3d\x3d\x3d\x3d\x3d\x3d\x3d\x3d\x3d\x3d\x3d\x3d\x3d\x3d\x3d\x3d\x3d\x3d\x3d\x3d\x3d\x3d\x3d\x3d\x3d\x3d\x3d\x3d\x3d\x3d\x3d\n// END TWEAKCC TRANSFORM RUNNER\n// \x3d\x3d\x3d\x3d\x3d\x3d\x3d\x3d\x3d\x3d\x3d\x3d\x3d\x3d\x3d\x3d\x3d\x3d\x3d\x3d\x3d\x3d\x3d\x3d\x3d\x3d\x3d\x3d\x3d\x3d\x3d\x3d\x3d\x3d\x3d\x3d\x3d\x3d\x3d\x3d\x3d\x3d\x3d\x3d\x3d\x3d\x3d\x3d\x3d\x3d\x3d\x3d\x3d\x3d\x3d\x3d\x3d\x3d\x3d\x3d\x3d\x3d\x3d\x3d\x3d\x3d\x3d\x3d\x3d\x3d\x3d\x3d\x3d\x3d\x3d\x3d\n\n"


structure LoggingConfig where
  enabled : Option Bool
  logFile : Option String
  logLevel : Option String
deriving Repr, DecidableEq

structure EventsConfig where
  enabled : Bool
  hooks : List Hook
  logging : Option LoggingConfig
deriving Repr, DecidableEq

structure TransformsConfig where
  enabled : Bool
  transforms : List Transform
deriving Repr, DecidableEq

/-- A present optional field of a serialized JS object. -/
def optField (k : String) (v : Option Json) : List (String × Json) :=
  match v with
  | none => []
  | some j => [(k, j)]

/-- `JSON.stringify` view of a hook filter block. -/
def hookFilterToJson (f : HookFilter) : Json :=
  Json.obj (optField "tools" (f.tools.map (fun l => Json.arr (l.map Json.str)))
    ++ optField "toolsExclude" (f.toolsExclude.map (fun l => Json.arr (l.map Json.str)))
    ++ optField "messageTypes" (f.messageTypes.map (fun l => Json.arr (l.map Json.str)))
    ++ optField "regex" (f.regex.map Json.str))

/-- `JSON.stringify` view of a hook record.  The field order is modelled
canonically; in JS it follows the configuration file''s key order, which
does not affect which specs are embedded. -/
def hookToJson (h : Hook) : Json :=
  Json.obj ([("id", Json.str h.id)]
    ++ optField "name" (h.name.map Json.str)
    ++ [("events", Json.arr (h.events.map Json.str)), ("type", Json.str h.type)]
    ++ optField "command" (h.command.map Json.str)
    ++ optField "webhook" (h.webhook.map Json.str)
    ++ optField "script" (h.script.map Json.str)
    ++ [("enabled", Json.bool h.enabled)]
    ++ optField "async" (h.async.map Json.bool)
    ++ optField "onError" (h.onError.map Json.str)
    ++ optField "retryCount" (h.retryCount.map (fun n => Json.num n))
    ++ optField "retryDelay" (h.retryDelay.map (fun n => Json.num n))
    ++ optField "timeout" (h.timeout.map (fun n => Json.num n))
    ++ optField "filter" (h.filter.map hookFilterToJson))

/-- `JSON.stringify` view of a transform record. -/
def transformToJson (t : Transform) : Json :=
  Json.obj ([("id", Json.str t.id)]
    ++ optField "name" (t.name.map Json.str)
    ++ [("transform", Json.str t.transform), ("script", Json.str t.script),
        ("enabled", Json.bool t.enabled)]
    ++ optField "priority" (t.priority.map Json.num)
    ++ optField "timeout" (t.timeout.map (fun n => Json.num n))
    ++ optField "filter" (t.filter.map (fun f =>
         Json.obj (optField "tools" (f.tools.map (fun l => Json.arr (l.map Json.str)))))))

/-- The hook list `generateEventEmitterCode` serializes:
`config.hooks.filter(h => h.enabled)`. -/
def embeddedHooks (config : EventsConfig) : List Hook :=
  config.hooks.filter (fun h => h.enabled)

/-- The transform list `generateTransformRunnerCode` serializes:
`config.transforms.filter(t => t.enabled)
  .sort((a, b) => (a.priority ?? 100) - (b.priority ?? 100))`
(JS sort with a numeric comparator is a stable ascending sort, modelled by
`mergeSort`). -/
def embeddedTransforms (config : TransformsConfig) : List Transform :=
  List.mergeSort (config.transforms.filter (fun t => t.enabled))
    (fun a b => decide (a.priority.getD 100 ≤ b.priority.getD 100))

/-- `generateEventEmitterCode(requireFunc, config)`: the fixed emitter
template with the serialized enabled hooks and the logging settings
interpolated. -/
def generateEventEmitterCode (requireFunc : String) (config : EventsConfig) : String :=
  let hooksJson := jsonStringify (Json.arr ((embeddedHooks config).map hookToJson))
  let loggingEnabled :=
    match config.logging with
    | none => false
    | some lg => lg.enabled.getD false
  let logFile :=
    match config.logging with
    | none => ""
    | some lg => lg.logFile.getD ""
  let logLevel :=
    match config.logging with
    | none => "info"
    | some lg => lg.logLevel.getD "info"
  emitterT0 ++ requireFunc ++ emitterT1 ++ requireFunc ++ emitterT2 ++ requireFunc ++
    emitterT3 ++ requireFunc ++ emitterT4 ++ hooksJson ++ emitterT5 ++
    (if loggingEnabled then "true" else "false") ++ emitterT6 ++
    jsonStringify (Json.str logFile) ++ emitterT7 ++
    jsonStringify (Json.str logLevel) ++ emitterT8 ++ requireFunc ++ emitterT9 ++
    requireFunc ++ emitterT10

/-- `generateTransformRunnerCode(requireFunc, config)`: the fixed runner
template with the serialized, sorted, enabled transforms interpolated. -/
def generateTransformRunnerCode (requireFunc : String) (config : TransformsConfig) : String :=
  let transformsJson :=
    jsonStringify (Json.arr ((embeddedTransforms config).map transformToJson))
  runnerT0 ++ requireFunc ++ runnerT1 ++ requireFunc ++ runnerT2 ++ requireFunc ++
    runnerT3 ++ requireFunc ++ runnerT4 ++ requireFunc ++ runnerT5 ++
    transformsJson ++ runnerT6

-- SECTION: C7

/-- Substring occurrence over the character lists (JS `String.includes`). -/
def infixOf (needle : List Char) : List Char → Bool
  | [] => needle.isEmpty
  | c :: t => needle.isPrefixOf (c :: t) || infixOf needle t

/-- Whether `needle` occurs anywhere in `hay`. -/
def strOccurs (needle hay : String) : Bool := infixOf needle.data hay.data

lemma isPrefixOf_append (n x y : List Char) (h : n.isPrefixOf x = true) :
    n.isPrefixOf (x ++ y) = true := by
  rw [List.isPrefixOf_iff_prefix] at h ⊢
  exact h.trans (x.prefix_append y)

lemma infixOf_append (n : List Char) :
    ∀ x y, infixOf n x = true → infixOf n (x ++ y) = true := by
  intro x
  induction x with
  | nil =>
    intro y h
    simp only [infixOf, List.isEmpty_iff] at h
    subst h
    induction y with
    | nil => rfl
    | cons c t iht => simp [infixOf, List.isPrefixOf]
  | cons c t ih =>
    intro y h
    simp only [infixOf, Bool.or_eq_true] at h
    rcases h with h | h
    · simp only [List.cons_append, infixOf, Bool.or_eq_true]
      exact Or.inl (isPrefixOf_append n (c :: t) y h)
    · simp only [List.cons_append, infixOf, Bool.or_eq_true]
      exact Or.inr (ih y h)

lemma strOccurs_append_left (n x y : String) (h : strOccurs n x = true) :
    strOccurs n (x ++ y) = true := by
  unfold strOccurs at h ⊢
  rw [String.data_append]
  exact infixOf_append n.data x.data y.data h

/-- A disabled hook whose id is the single character "a". -/
def cexHook : Hook :=
  { id := "a", name := none, events := ["tool:before"], type := "command",
    command := some "echo hi", webhook := none, script := none, enabled := false,
    async := none, onError := none, retryCount := none, retryDelay := none,
    timeout := none, filter := none }

/-- A configuration whose only hook is the disabled `cexHook`. -/
def cexConfig : EventsConfig := { enabled := true, hooks := [cexHook], logging := none }

/-- C7 counterexample: `cexConfig`''s only hook is disabled and has id "a",
yet "a" does occur in the module text produced by `generateEventEmitterCode`
(already inside the fixed template, e.g. in the word "tweakcc") — so "a
disabled hook''s id string never appears anywhere in the generated text" is
false as stated. -/
theorem generator_disabled_id_counterexample :
    cexHook.enabled = false ∧ cexHook ∈ cexConfig.hooks ∧
    strOccurs cexHook.id (generateEventEmitterCode "require" cexConfig) = true := by
  refine ⟨rfl, by simp [cexConfig], ?_⟩
  have h0 : strOccurs cexHook.id emitterT0 = true := by decide
  simp only [generateEventEmitterCode]
  repeat apply strOccurs_append_left
  exact h0

/-- C7 (amended): the generators embed exactly the enabled specs — the
hooks array serialized into the emitter module is precisely the enabled
subset of the configured hooks, the transforms array serialized into the
runner module contains precisely the enabled transforms (in priority
order), and each generated text is the fixed template around exactly that
serialization.  A disabled spec is never embedded, although its id string
may still occur as a substring of the generated text (inside the fixed
template or another spec''s serialization, as the counterexample shows). -/
theorem generator_embeds_only_enabled :
    (∀ (config : EventsConfig) (h : Hook),
       h ∈ embeddedHooks config ↔ (h ∈ config.hooks ∧ h.enabled = true)) ∧
    (∀ (config : TransformsConfig) (t : Transform),
       t ∈ embeddedTransforms config ↔ (t ∈ config.transforms ∧ t.enabled = true)) ∧
    (∀ (requireFunc : String) (config : EventsConfig), ∃ pre post,
       generateEventEmitterCode requireFunc config =
         pre ++ jsonStringify (Json.arr ((embeddedHooks config).map hookToJson)) ++ post) ∧
    (∀ (requireFunc : String) (config : TransformsConfig), ∃ pre post,
       generateTransformRunnerCode requireFunc config =
         pre ++ jsonStringify (Json.arr ((embeddedTransforms config).map transformToJson))
           ++ post) := by
  refine ⟨?_, ?_, ?_, ?_⟩
  · intro config h
    simp [embeddedHooks, List.mem_filter]
  · intro config t
    unfold embeddedTransforms
    rw [List.Perm.mem_iff (List.mergeSort_perm _ _)]
    simp [List.mem_filter]
  · intro requireFunc config
    refine ⟨emitterT0 ++ requireFunc ++ emitterT1 ++ requireFunc ++ emitterT2 ++
      requireFunc ++ emitterT3 ++ requireFunc ++ emitterT4,
      emitterT5 ++
        (if (match config.logging with
             | none => false
             | some lg => lg.enabled.getD false) then "true" else "false") ++ emitterT6 ++
        jsonStringify (Json.str (match config.logging with
             | none => ""
             | some lg => lg.logFile.getD "")) ++ emitterT7 ++
        jsonStringify (Json.str (match config.logging with
             | none => "info"
             | some lg => lg.logLevel.getD "info")) ++ emitterT8 ++ requireFunc ++
        emitterT9 ++ requireFunc ++ emitterT10, ?_⟩
    simp [generateEventEmitterCode, String.append_assoc]
  · intro requireFunc config
    refine ⟨runnerT0 ++ requireFunc ++ runnerT1 ++ requireFunc ++ runnerT2 ++
      requireFunc ++ runnerT3 ++ requireFunc ++ runnerT4 ++ requireFunc ++ runnerT5,
      runnerT6, ?_⟩
    simp [generateTransformRunnerCode, String.append_assoc]

end Tweakcc
